import Mathlib

/-!
Verification of the Liquid Nation order/escrow lifecycle engine.

The repository is a React client plus an API layer (`src/services/api.js`,
embedded below by its function names).  The server-side Order and Escrow
Lifecycle Managers are referenced by the client but their code is not part
of the checked-out sources, so those managers are modelled from the
specification (each such definition carries a doc comment starting with
`Modelled from the spec:`).  Client-side functions are translated directly
from the JSX/JS sources.

Conventions: machine integers and amounts are `Nat` (the spec's amounts are
non-negative token units); the client's float arithmetic in
`calculateFillAmounts` is embedded over `ℚ` (exact arithmetic; the trailing
`toFixed(8)` display formatting is not modelled); JavaScript `undefined`
and `null` are `Option.none`; JavaScript truthiness of strings is
non-emptiness and of numbers is non-zeroness.
-/

/-! ## Order lifecycle manager (modelled from the spec, section 4.1) -/

/-- Order states, spec section 4.1. -/
inductive OrderStatus where
  | pendingSignature
  | active
  | partiallyFilled
  | filled
  | cancelled
  | expired
deriving DecidableEq, Repr

/-- Terminal order states: `filled`, `cancelled`, `expired` (spec section 3). -/
def OrderStatus.isTerminal : OrderStatus → Bool
  | .filled => true
  | .cancelled => true
  | .expired => true
  | _ => false

/-- States from which a fill is allowed: `active` and `partially_filled`. -/
def OrderStatus.isFillable : OrderStatus → Bool
  | .active => true
  | .partiallyFilled => true
  | _ => false

/-- Error kinds of the order manager, from the spec's error taxonomy. -/
inductive OrderError where
  | invalidOrderSpec
  | orderNotFillable
  | amountExceedsRemaining
  | partialFillNotAllowed
  | unauthorized
  | alreadyTerminal
  | stateConflict
deriving DecidableEq, Repr

/-- Persisted order row (spec section 3 and the schema in section 6);
`allowPartialFill` is the schema's `allow_partial` flag. -/
structure Order where
  makerAddress : String
  offerToken : String
  offerAmount : Nat
  wantToken : String
  wantAmount : Nat
  sourceChain : String
  destChain : String
  allowPartialFill : Bool
  filledAmount : Nat
  expiryHeight : Nat
  status : OrderStatus
deriving DecidableEq, Repr

/-- Remaining fillable amount `offer_amount - filled_amount`. -/
def remainingAmount (o : Order) : Nat :=
  o.offerAmount - o.filledAmount

/-- Order creation request (spec section 4.1 `create`). -/
structure OrderSpec where
  makerAddress : String
  offerToken : String
  offerAmount : Nat
  wantToken : String
  wantAmount : Nat
  sourceChain : String
  destChain : String
  allowPartialFill : Bool
  expiryHeight : Nat
deriving DecidableEq, Repr

/-- Modelled from the spec: `create(spec)` of the Order Lifecycle Manager
(section 4.1), whose implementation is not among the checked-out sources.
Validates `offer_amount > 0`, `want_amount > 0`, distinct offer/want tokens
and a non-empty `maker_address`, then persists the order in
`pending_signature` with `filled_amount = 0`. -/
def createOrder (s : OrderSpec) : Except OrderError Order :=
  if s.offerAmount = 0 ∨ s.wantAmount = 0 ∨ s.offerToken = s.wantToken ∨ s.makerAddress = "" then
    .error .invalidOrderSpec
  else
    .ok {
      makerAddress := s.makerAddress
      offerToken := s.offerToken
      offerAmount := s.offerAmount
      wantToken := s.wantToken
      wantAmount := s.wantAmount
      sourceChain := s.sourceChain
      destChain := s.destChain
      allowPartialFill := s.allowPartialFill
      filledAmount := 0
      expiryHeight := s.expiryHeight
      status := .pendingSignature
    }

/-- Modelled from the spec: `fill(order_id, taker_address, fill_amount)` of the
Order Lifecycle Manager (section 4.1), whose implementation is not among the
checked-out sources.  Rejects when the order is not `active`/`partially_filled`
(`OrderNotFillable`), when the amount exceeds the remaining amount
(`AmountExceedsRemaining`), and when `!allow_partial` and the amount is not the
full remaining amount (`PartialFillNotAllowed`); on acceptance increments
`filled_amount` and recomputes `status`.  This function models the validation
together with the state change applied on confirmed broadcast. -/
def fillOrder (o : Order) (taker : String) (fillAmount : Nat) : Except OrderError Order :=
  if o.status.isFillable = false then .error .orderNotFillable
  else if remainingAmount o < fillAmount then .error .amountExceedsRemaining
  else if o.allowPartialFill = false ∧ fillAmount ≠ remainingAmount o then
    .error .partialFillNotAllowed
  else
    .ok { o with
      filledAmount := o.filledAmount + fillAmount
      status := if o.filledAmount + fillAmount = o.offerAmount then
          OrderStatus.filled
        else OrderStatus.partiallyFilled }

/-- Modelled from the spec: `cancel(order_id, requester)` of the Order
Lifecycle Manager (section 4.1), whose implementation is not among the
checked-out sources.  Rejects unless `requester` equals `maker_address`
(`Unauthorized`), rejects terminal orders (`AlreadyTerminal`), and otherwise
sets `status = cancelled`. -/
def cancelOrder (o : Order) (requester : String) : Except OrderError Order :=
  if requester ≠ o.makerAddress then .error .unauthorized
  else if o.status.isTerminal = true then .error .alreadyTerminal
  else .ok { o with status := .cancelled }

/-- Modelled from the spec: confirmation of the order-opening transaction
(section 4.1): `pending_signature` advances to `active` only once the
order-opening transaction confirms. -/
def confirmOpen (o : Order) : Except OrderError Order :=
  if o.status = .pendingSignature then .ok { o with status := .active }
  else .error .stateConflict

/-- Modelled from the spec: one order's share of `sweepExpired()`
(section 4.1): an order with `expiry_height` below the current height and
status `active`/`partially_filled` transitions to `expired`. -/
def expireOrder (o : Order) (height : Nat) : Except OrderError Order :=
  if o.expiryHeight ≤ height ∧ o.status.isFillable = true then
    .ok { o with status := .expired }
  else .error .stateConflict

/-- Events that can be attempted against a persisted order. -/
inductive OrderEvent where
  | openConfirmed
  | fillConfirmed (taker : String) (amount : Nat)
  | cancelRequested (requester : String)
  | expireAtHeight (height : Nat)
deriving DecidableEq, Repr

/-- Result of an attempted operation: the new state on success, the old
state unchanged on rejection (spec section 7: no partial writes survive a
failed operation). -/
def applyOrElse (r : Except OrderError Order) (o : Order) : Order :=
  match r with
  | .ok o2 => o2
  | .error _ => o

/-- One attempted event against an order; rejected attempts leave the
stored order unchanged. -/
def applyEvent (o : Order) (e : OrderEvent) : Order :=
  match e with
  | .openConfirmed => applyOrElse (confirmOpen o) o
  | .fillConfirmed t a => applyOrElse (fillOrder o t a) o
  | .cancelRequested r => applyOrElse (cancelOrder o r) o
  | .expireAtHeight h => applyOrElse (expireOrder o h) o

/-- A sequence of interleaved attempts, applied in order. -/
def runEvents (o : Order) (es : List OrderEvent) : Order :=
  es.foldl applyEvent o

/-! ## Fill client (translated from src/src/components/FillOrder.jsx) -/

/-- From FillOrder.jsx `calculateFillAmounts` (lines 125-142): given the
order's offer amount, want amount and filled amount and the slider
percentage, returns `(receiveAmount, sendAmount)` where
`receiveAmount = (offerAmount - filledAmount) * fillPercent / 100` and
`sendAmount = wantAmount * fillPercent / 100`.  The JavaScript float
arithmetic is embedded over `ℚ`; the final `toFixed(8)` display formatting
is not modelled. -/
def calculateFillAmounts (offerAmount wantAmount filledAmount fillPercent : ℚ) : ℚ × ℚ :=
  let remaining := offerAmount - filledAmount
  let fillFraction := fillPercent / 100
  (remaining * fillFraction, wantAmount * fillFraction)

/-- JavaScript `toLowerCase()` on the ASCII status strings: code-point-wise
lowering. -/
def lowerString (s : String) : String :=
  String.mk (s.data.map Char.toLower)

/-- From FillOrder.jsx line 325: the fill action is enabled exactly when the
order's status string lower-cases to "active" or "partiallyfilled"
(a missing status is not fillable). -/
def canFill (status : Option String) : Bool :=
  match status with
  | none => false
  | some s => (lowerString s == "active") || (lowerString s == "partiallyfilled")

/-! ## Escrow lifecycle manager (modelled from the spec, section 4.2) -/

/-- Escrow states, spec section 4.2. -/
inductive EscrowStatus where
  | pending
  | locked
  | released
  | refunded
  | disputed
  | resolved
deriving DecidableEq, Repr

/-- Error kinds of the escrow manager, from the spec. -/
inductive EscrowError where
  | invalidEscrowSpec
  | invalidState
  | preimageMismatch
  | unauthorizedSigner
  | lockNotExpired
  | noArbiterConfigured
  | notDisputed
deriving DecidableEq, Repr

/-- Persisted escrow row (spec sections 3 and 6). -/
structure Escrow where
  depositorAddress : String
  recipientAddress : String
  amount : Nat
  token : String
  hashlock : Option String
  lockTime : Nat
  status : EscrowStatus
deriving DecidableEq, Repr

/-- Modelled from the spec: `release(escrow_id, preimage?, signature,
signer_pubkey)` of the Escrow Lifecycle Manager (section 4.2), whose
implementation is not among the checked-out sources.  Valid only from
`locked`.  If `hashlock` is set, `preimage` is mandatory and must hash to it
(`PreimageMismatch` otherwise); the signature must validate against
`signer_pubkey`, which must be the recipient.  The hash function (sha256 in
the spec) and signature verifier are abstract parameters; the two-of-two /
two-of-three threshold variants are outside the scope of the hashlock claim
and are represented by the same signature predicate. -/
def releaseEscrow (hash : String → String) (sigValid : String → String → Bool)
    (e : Escrow) (preimage : Option String) (signature signerPubkey : String) :
    Except EscrowError Escrow :=
  if e.status ≠ .locked then .error .invalidState
  else
    match e.hashlock with
    | some h =>
      match preimage with
      | none => .error .preimageMismatch
      | some p =>
        if hash p ≠ h then .error .preimageMismatch
        else if sigValid signature signerPubkey = true ∧ signerPubkey = e.recipientAddress then
          .ok { e with status := .released }
        else .error .unauthorizedSigner
    | none =>
      if sigValid signature signerPubkey = true ∧ signerPubkey = e.recipientAddress then
        .ok { e with status := .released }
      else .error .unauthorizedSigner

/-- State of the stored escrow after a release request: the new row on
success, the unchanged row on rejection (spec section 7: no partial writes
survive a failed operation). -/
def releaseResultState (hash : String → String) (sigValid : String → String → Bool)
    (e : Escrow) (preimage : Option String) (signature signerPubkey : String) : Escrow :=
  match releaseEscrow hash sigValid e preimage signature signerPubkey with
  | .ok e2 => e2
  | .error _ => e

/-! ## Signing modal and order context (translated from
src/src/components/SigningModal.jsx and src/src/context/OrderContext.jsx) -/

/-- Outcome of the signing modal's broadcast step. -/
inductive BroadcastOutcome where
  | promoted
  | failed
deriving DecidableEq, Repr

/-- From SigningModal.jsx `handleBroadcast` (lines 83-113): with no signed
transaction hex the step errors out; otherwise the broadcast result is
accepted — and the `onSuccess` callback that promotes the pending order is
invoked — exactly when the response status is "confirmed" or "success",
and every other status raises an error instead. -/
def handleBroadcast (signedTxHex : String) (resultStatus : String) : BroadcastOutcome :=
  if signedTxHex = "" then .failed
  else if resultStatus = "confirmed" ∨ resultStatus = "success" then .promoted
  else .failed

/-! ## Fill client ownership guard (translated from
src/src/components/FillOrder.jsx lines 328-329 and 447-479) -/

/-- JavaScript truthiness of an optional string: present and non-empty. -/
def truthy (s : Option String) : Bool :=
  match s with
  | none => false
  | some s => !s.isEmpty

/-- From FillOrder.jsx lines 328-329: the connected BTC wallet address is
truthy and equals the order's maker address or BTC wallet field, or the
connected EVM wallet address is truthy and equals the order's maker address
or EVM wallet field. -/
def isOwnOrder (btcAddress evmAddress makerAddress btcWallet evmWallet : Option String) : Bool :=
  (truthy btcAddress && (makerAddress == btcAddress || btcWallet == btcAddress)) ||
  (truthy evmAddress && (makerAddress == evmAddress || evmWallet == evmAddress))

/-- The action element rendered at the bottom of the fill page. -/
inductive FillActionButton where
  | ownOrderNotice
  | orderNotAvailable
  | connectWallet
  | approveToken
  | fillButton
deriving DecidableEq, Repr

/-- From FillOrder.jsx lines 447-479: the chain of conditional renders for
the action area — own order notice first, then the disabled button for
non-fillable orders, then the connect-wallet button, then the ERC20 approve
button, and finally the fill button. -/
def fillActionButton (isOwn canFillNow btcConnected evmConnected isApproved : Bool)
    (wantToken : String) : FillActionButton :=
  if isOwn then .ownOrderNotice
  else if !canFillNow then .orderNotAvailable
  else if !btcConnected && !evmConnected then .connectWallet
  else if !isApproved && wantToken ≠ "BTC" then .approveToken
  else .fillButton

/-! ## API client (translated from src/services/api.js) -/

/-- Parsed JSON body of an HTTP response; `message` is its optional
string-typed `message` field and `rest` stands for the remaining payload. -/
structure JsonBody where
  message : Option String
  rest : String
deriving DecidableEq, Repr

/-- The parts of a fetch response that `apiRequest` inspects; `jsonBody` is
`none` when the body cannot be parsed as JSON. -/
structure FetchResponse where
  ok : Bool
  status : Nat
  statusText : String
  jsonBody : Option JsonBody
deriving DecidableEq, Repr

/-- From api.js `apiRequest` (lines 282-310): on an ok response the parsed
JSON body is returned (an ok response with an unparseable body rethrows the
parse failure); on a non-ok response the body is parsed as JSON, falling
back to a synthetic body whose `message` is the response's `statusText`, and
an error is thrown whose message is `error.message` when that is truthy and
the string "API Error: " followed by the status code otherwise. -/
def apiRequest (r : FetchResponse) : Except String JsonBody :=
  if r.ok = true then
    match r.jsonBody with
    | some b => .ok b
    | none => .error "Unexpected end of JSON input"
  else
    let errMessage : Option String :=
      match r.jsonBody with
      | some b => b.message
      | none => some r.statusText
    match errMessage with
    | some m => .error (if m = "" then "API Error: " ++ toString r.status else m)
    | none => .error ("API Error: " ++ toString r.status)

/-- Order list filters accepted by api.js `listOrders` (lines 324-348);
absent fields are `none`. -/
structure OrderFilters where
  status : Option String
  offerToken : Option String
  wantToken : Option String
  makerAddress : Option String
  sourceChain : Option String
  destChain : Option String
  limit : Option Nat
  offset : Option Nat
deriving DecidableEq, Repr

/-- One conditional `params.append(key, value)` on an optional string
filter: appended exactly when the value is truthy (present and non-empty). -/
def appendIfStr (key : String) (v : Option String) : List (String × String) :=
  match v with
  | some s => if s = "" then [] else [(key, s)]
  | none => []

/-- One conditional `params.append(key, value.toString())` on an optional
numeric filter: appended exactly when the value is truthy (present and
non-zero), rendered as a decimal string. -/
def appendIfNat (key : String) (v : Option Nat) : List (String × String) :=
  match v with
  | some n => if n = 0 then [] else [(key, toString n)]
  | none => []

/-- From api.js `listOrders` (lines 334-348): the query parameters appended
to the URLSearchParams, in source order. -/
def listOrdersParams (f : OrderFilters) : List (String × String) :=
  appendIfStr "status" f.status ++
  appendIfStr "offer_token" f.offerToken ++
  appendIfStr "want_token" f.wantToken ++
  appendIfStr "maker_address" f.makerAddress ++
  appendIfStr "source_chain" f.sourceChain ++
  appendIfStr "dest_chain" f.destChain ++
  appendIfNat "limit" f.limit ++
  appendIfNat "offset" f.offset

/-- URLSearchParams.toString(): key=value pairs joined with ampersands. -/
def renderQuery : List (String × String) → String
  | [] => ""
  | [kv] => kv.1 ++ "=" ++ kv.2
  | kv :: rest => kv.1 ++ "=" ++ kv.2 ++ "&" ++ renderQuery rest

/-- From api.js `listOrders` (lines 346-347): the GET endpoint, with the
query string appended after a question mark when it is non-empty. -/
def listOrdersEndpoint (f : OrderFilters) : String :=
  let query := renderQuery (listOrdersParams f)
  "/orders" ++ (if query = "" then "" else "?" ++ query)

/-- JavaScript `address.slice(-chars)`: the last `chars` characters, except
that `slice(-0)` is `slice(0)`, the whole string. -/
def sliceLast (s : String) (n : Nat) : String :=
  if n = 0 then s else s.takeRight n

/-- From api.js `shortenAddress` (lines 717-720): empty output for a falsy
address, otherwise the first `chars` characters, "...", and
`address.slice(-chars)`. -/
def shortenAddress (address : Option String) (chars : Nat) : String :=
  match address with
  | none => ""
  | some a => if a = "" then "" else a.take chars ++ "..." ++ sliceLast a chars

/-- The `chars = 6` default of api.js `shortenAddress`. -/
def shortenAddressDefault (address : Option String) : String :=
  shortenAddress address 6
/-! ## Concrete fixtures (the spec's section 8 scenario values) -/

/-- A creation request for the spec's scenario order: offer 100, partial
fills allowed. -/
def demoSpec : OrderSpec :=
  { makerAddress := "maker1"
    offerToken := "BTC"
    offerAmount := 100
    wantToken := "USDC"
    wantAmount := 200
    sourceChain := "BTC"
    destChain := "ETH"
    allowPartialFill := true
    expiryHeight := 1000 }

/-- The order persisted for `demoSpec`. -/
def demoOrder : Order :=
  { makerAddress := "maker1"
    offerToken := "BTC"
    offerAmount := 100
    wantToken := "USDC"
    wantAmount := 200
    sourceChain := "BTC"
    destChain := "ETH"
    allowPartialFill := true
    filledAmount := 0
    expiryHeight := 1000
    status := .pendingSignature }

/-- A fully filled order. -/
def demoFilledOrder : Order :=
  { makerAddress := "maker1"
    offerToken := "BTC"
    offerAmount := 100
    wantToken := "USDC"
    wantAmount := 200
    sourceChain := "BTC"
    destChain := "ETH"
    allowPartialFill := true
    filledAmount := 100
    expiryHeight := 1000
    status := .filled }

/-- An active, unfilled order. -/
def demoActiveOrder : Order :=
  { makerAddress := "maker1"
    offerToken := "BTC"
    offerAmount := 100
    wantToken := "USDC"
    wantAmount := 200
    sourceChain := "BTC"
    destChain := "ETH"
    allowPartialFill := true
    filledAmount := 0
    expiryHeight := 1000
    status := .active }

/-- A stand-in for sha256 in concrete escrow computations. -/
def demoHash (s : String) : String :=
  "h:" ++ s

/-- A locked hashlocked escrow whose preimage is "secret" under `demoHash`. -/
def demoEscrow : Escrow :=
  { depositorAddress := "dep"
    recipientAddress := "rcpt"
    amount := 50
    token := "BTC"
    hashlock := some "h:secret"
    lockTime := 500
    status := .locked }

/-! ## Basic machine lemmas -/

theorem isFillable_of_not_terminal (s : OrderStatus) (h : s.isTerminal = true) :
    s.isFillable = false := by
  cases s <;> simp_all [OrderStatus.isTerminal, OrderStatus.isFillable]

theorem confirmOpen_ok (o o2 : Order) (h : confirmOpen o = .ok o2) :
    o2 = { o with status := .active } := by
  unfold confirmOpen at h
  split at h <;> simp_all

theorem fillOrder_ok (o : Order) (t : String) (a : Nat) (o2 : Order)
    (h : fillOrder o t a = .ok o2) :
    a ≤ remainingAmount o ∧
      o2 = { o with
        filledAmount := o.filledAmount + a
        status := if o.filledAmount + a = o.offerAmount then
            OrderStatus.filled
          else OrderStatus.partiallyFilled } := by
  unfold fillOrder at h
  split_ifs at h with h1 h2 h3 <;> simp_all <;> omega

theorem cancelOrder_ok (o : Order) (r : String) (o2 : Order)
    (h : cancelOrder o r = .ok o2) :
    o2 = { o with status := .cancelled } := by
  unfold cancelOrder at h
  split_ifs at h <;> simp_all

theorem expireOrder_ok (o : Order) (ht : Nat) (o2 : Order)
    (h : expireOrder o ht = .ok o2) :
    o2 = { o with status := .expired } := by
  unfold expireOrder at h
  split_ifs at h <;> simp_all

theorem applyEvent_offerAmount (o : Order) (e : OrderEvent) :
    (applyEvent o e).offerAmount = o.offerAmount := by
  cases e with
  | openConfirmed =>
      simp only [applyEvent, applyOrElse]
      split
      next o2 heq => rw [confirmOpen_ok o o2 heq]
      next => rfl
  | fillConfirmed t a =>
      simp only [applyEvent, applyOrElse]
      split
      next o2 heq => rw [(fillOrder_ok o t a o2 heq).2]
      next => rfl
  | cancelRequested r =>
      simp only [applyEvent, applyOrElse]
      split
      next o2 heq => rw [cancelOrder_ok o r o2 heq]
      next => rfl
  | expireAtHeight ht =>
      simp only [applyEvent, applyOrElse]
      split
      next o2 heq => rw [expireOrder_ok o ht o2 heq]
      next => rfl

theorem applyEvent_filled_le (o : Order) (e : OrderEvent)
    (h : o.filledAmount ≤ o.offerAmount) :
    (applyEvent o e).filledAmount ≤ (applyEvent o e).offerAmount := by
  cases e with
  | openConfirmed =>
      simp only [applyEvent, applyOrElse]
      split
      next o2 heq => rw [confirmOpen_ok o o2 heq]; exact h
      next => exact h
  | fillConfirmed t a =>
      simp only [applyEvent, applyOrElse]
      split
      next o2 heq =>
        obtain ⟨hle, ho2⟩ := fillOrder_ok o t a o2 heq
        rw [ho2]
        show o.filledAmount + a ≤ o.offerAmount
        simp only [remainingAmount] at hle
        omega
      next => exact h
  | cancelRequested r =>
      simp only [applyEvent, applyOrElse]
      split
      next o2 heq => rw [cancelOrder_ok o r o2 heq]; exact h
      next => exact h
  | expireAtHeight ht =>
      simp only [applyEvent, applyOrElse]
      split
      next o2 heq => rw [expireOrder_ok o ht o2 heq]; exact h
      next => exact h

theorem runEvents_filled_le (o : Order) (es : List OrderEvent)
    (h : o.filledAmount ≤ o.offerAmount) :
    (runEvents o es).filledAmount ≤ (runEvents o es).offerAmount := by
  induction es generalizing o with
  | nil => exact h
  | cons e es ih =>
      simpa [runEvents, List.foldl_cons] using ih (applyEvent o e) (applyEvent_filled_le o e h)

theorem applyEvent_of_terminal (o : Order) (e : OrderEvent)
    (h : o.status.isTerminal = true) :
    applyEvent o e = o := by
  have hf := isFillable_of_not_terminal o.status h
  cases e with
  | openConfirmed =>
      have : o.status ≠ .pendingSignature := by
        intro hs; rw [hs] at h; simp [OrderStatus.isTerminal] at h
      simp [applyEvent, applyOrElse, confirmOpen, this]
  | fillConfirmed t a =>
      simp [applyEvent, applyOrElse, fillOrder, hf]
  | cancelRequested r =>
      by_cases hr : r = o.makerAddress
      · simp [applyEvent, applyOrElse, cancelOrder, hr, h]
      · simp [applyEvent, applyOrElse, cancelOrder, hr]
  | expireAtHeight ht =>
      simp [applyEvent, applyOrElse, expireOrder, hf]

theorem runEvents_of_terminal (o : Order) (es : List OrderEvent)
    (h : o.status.isTerminal = true) :
    runEvents o es = o := by
  induction es with
  | nil => rfl
  | cons e es ih =>
      simp [runEvents, List.foldl_cons, applyEvent_of_terminal o e h] at ih ⊢
      exact ih

theorem runEvents_of_terminal_status (o : Order) (es : List OrderEvent)
    (h : o.status.isTerminal = true) :
    (runEvents o es).status = o.status := by
  rw [runEvents_of_terminal o es h]


/-! ## Claim theorems -/

theorem createOrder_ok (sp : OrderSpec) (o : Order) (h : createOrder sp = .ok o) :
    o.filledAmount = 0 ∧ o.status = .pendingSignature := by
  unfold createOrder at h
  split_ifs at h <;> simp_all
  rw [← h]
  exact ⟨rfl, rfl⟩

/-- Claim C1: no over-fill.  For every validly created order and every
sequence of interleaved fill, cancel, open-confirmation and expiry attempts
against it, `filled_amount ≤ offer_amount` holds in the resulting state; and
in the fill client, the receive amount computed by `calculateFillAmounts`
for any fill percentage between 0 and 100 never exceeds the remaining
amount `offer_amount - filled_amount`. -/
theorem no_overfill_invariant :
    (∀ (sp : OrderSpec) (o : Order) (es : List OrderEvent),
      createOrder sp = Except.ok o →
      (runEvents o es).filledAmount ≤ (runEvents o es).offerAmount) ∧
    (∀ offerAmount wantAmount filledAmount fillPercent : ℚ,
      0 ≤ filledAmount → filledAmount ≤ offerAmount →
      0 ≤ fillPercent → fillPercent ≤ 100 →
      (calculateFillAmounts offerAmount wantAmount filledAmount fillPercent).1 ≤
        offerAmount - filledAmount) := by
  constructor
  · intro sp o es h
    exact runEvents_filled_le o es (by rw [(createOrder_ok sp o h).1]; exact Nat.zero_le _)
  · intro offerAmount wantAmount filledAmount fillPercent h0 hle hp0 hp100
    simp only [calculateFillAmounts]
    have hfrac1 : fillPercent / 100 ≤ 1 := by
      rw [div_le_one (by norm_num : (0:ℚ) < 100)]
      exact hp100
    exact mul_le_of_le_one_right (by linarith) hfrac1

/-- Witness for C1: the spec's section 8 scenario (fills of 40, 60 and then
an over-fill attempt of 5 against an order of 100) stays within the offer
amount, and a 50 percent fill of the remaining 60 stays below 60. -/
theorem no_overfill_invariant_witness :
    (runEvents demoOrder
        [OrderEvent.openConfirmed, OrderEvent.fillConfirmed "taker1" 40,
         OrderEvent.fillConfirmed "taker2" 60,
         OrderEvent.fillConfirmed "taker3" 5]).filledAmount ≤
      (runEvents demoOrder
        [OrderEvent.openConfirmed, OrderEvent.fillConfirmed "taker1" 40,
         OrderEvent.fillConfirmed "taker2" 60,
         OrderEvent.fillConfirmed "taker3" 5]).offerAmount ∧
    (calculateFillAmounts 100 200 40 50).1 ≤ (100 : ℚ) - 40 := by
  constructor
  · exact no_overfill_invariant.1 demoSpec demoOrder
      [OrderEvent.openConfirmed, OrderEvent.fillConfirmed "taker1" 40,
       OrderEvent.fillConfirmed "taker2" 60, OrderEvent.fillConfirmed "taker3" 5] (by rfl)
  · exact no_overfill_invariant.2 100 200 40 50 (by norm_num) (by norm_num)
      (by norm_num) (by norm_num)

theorem exceptError_isOk {ε α : Type} (e : ε) :
    (Except.error e : Except ε α).isOk = false := rfl

theorem exceptOk_isOk {ε α : Type} (a : α) :
    (Except.ok a : Except ε α).isOk = true := rfl

/-- Claim C2: monotonic terminal status.  Once an order is `filled`,
`cancelled` or `expired`, no fill or cancel succeeds on it, any sequence of
further attempts leaves it unchanged (so it never returns to `active` or
`partially_filled`); and in the fill client the fill action is enabled
exactly for the status strings lowering to "active" or "partiallyfilled". -/
theorem monotonic_terminal_status (o : Order) (h : o.status.isTerminal = true) :
    (∀ t a, (fillOrder o t a).isOk = false) ∧
    (∀ r, (cancelOrder o r).isOk = false) ∧
    (∀ es, runEvents o es = o) ∧
    (∀ s : String, canFill (some s) = true ↔
      (lowerString s = "active" ∨ lowerString s = "partiallyfilled")) := by
  refine ⟨?_, ?_, ?_, ?_⟩
  · intro t a
    unfold fillOrder
    simp [isFillable_of_not_terminal o.status h, exceptError_isOk]
  · intro r
    unfold cancelOrder
    split_ifs <;> simp_all [exceptError_isOk]
  · intro es
    exact runEvents_of_terminal o es h
  · intro s
    simp [canFill]

/-- Witness for C2: against a fully filled order, a fill of 1 and a
maker-requested cancel both fail, a sequence of further attempts leaves the
order unchanged, and a lower-cased "Active" status is what enables the fill
button. -/
theorem monotonic_terminal_status_witness :
    (fillOrder demoFilledOrder "taker1" 1).isOk = false ∧
    (cancelOrder demoFilledOrder "maker1").isOk = false ∧
    runEvents demoFilledOrder
      [OrderEvent.cancelRequested "maker1", OrderEvent.fillConfirmed "taker1" 1,
       OrderEvent.openConfirmed, OrderEvent.expireAtHeight 2000] = demoFilledOrder ∧
    canFill (some "Active") = true := by
  refine ⟨(monotonic_terminal_status demoFilledOrder (by decide)).1 "taker1" 1,
    (monotonic_terminal_status demoFilledOrder (by decide)).2.1 "maker1",
    (monotonic_terminal_status demoFilledOrder (by decide)).2.2.1
      [OrderEvent.cancelRequested "maker1", OrderEvent.fillConfirmed "taker1" 1,
       OrderEvent.openConfirmed, OrderEvent.expireAtHeight 2000],
    ((monotonic_terminal_status demoFilledOrder (by decide)).2.2.2 "Active").mpr
      (Or.inl (by decide))⟩

/-- Claim C3: fill rejection conditions.  A fill is rejected with
`OrderNotFillable` exactly when the order is not `active`/`partially_filled`;
with `AmountExceedsRemaining` exactly when the order is fillable but the
amount exceeds `offer_amount - filled_amount`; with `PartialFillNotAllowed`
exactly when the order is fillable, the amount fits, but partial fills are
disallowed and the amount is not the full remaining amount; and it is
accepted exactly when none of the three rejection conditions applies. -/
theorem fill_rejection_conditions (o : Order) (taker : String) (a : Nat) :
    (fillOrder o taker a = .error .orderNotFillable ↔ o.status.isFillable = false) ∧
    (fillOrder o taker a = .error .amountExceedsRemaining ↔
      o.status.isFillable = true ∧ remainingAmount o < a) ∧
    (fillOrder o taker a = .error .partialFillNotAllowed ↔
      o.status.isFillable = true ∧ a ≤ remainingAmount o ∧
        o.allowPartialFill = false ∧ a ≠ remainingAmount o) ∧
    ((fillOrder o taker a).isOk = true ↔
      o.status.isFillable = true ∧ a ≤ remainingAmount o ∧
        (o.allowPartialFill = true ∨ a = remainingAmount o)) := by
  unfold fillOrder
  split_ifs with h1 h2 h3 <;>
    simp_all [exceptError_isOk, exceptOk_isOk, remainingAmount] <;>
    (try omega) <;>
    rcases Bool.eq_false_or_eq_true o.allowPartialFill with hb | hb <;>
    (try simp_all) <;>
    omega

/-- Claim C4: hashlock correctness.  For a locked escrow with a configured
hashlock, a release can succeed only when the supplied preimage hashes to
the hashlock; any other preimage fails with `PreimageMismatch` and leaves
the escrow row unchanged (still `locked`); and under a valid recipient
signature, release succeeds exactly when the preimage hashes to the
hashlock. -/
theorem hashlock_correctness (hash : String → String) (sigValid : String → String → Bool)
    (e : Escrow) (p sig pk hl : String)
    (hhl : e.hashlock = some hl) (hlk : e.status = EscrowStatus.locked) :
    ((releaseEscrow hash sigValid e (some p) sig pk).isOk = true → hash p = hl) ∧
    (hash p ≠ hl →
      releaseEscrow hash sigValid e (some p) sig pk = .error .preimageMismatch ∧
      releaseResultState hash sigValid e (some p) sig pk = e ∧
      (releaseResultState hash sigValid e (some p) sig pk).status = .locked) ∧
    (sigValid sig pk = true → pk = e.recipientAddress →
      ((releaseEscrow hash sigValid e (some p) sig pk).isOk = true ↔ hash p = hl)) := by
  unfold releaseEscrow releaseResultState
  rw [hhl]
  simp only [hlk]
  by_cases hp : hash p = hl
  · by_cases hs : sigValid sig pk = true ∧ pk = e.recipientAddress
    · simp [releaseEscrow, hlk, hhl, hp, hs, exceptOk_isOk]
      intro h
      simp [h, exceptOk_isOk]
    · simp [releaseEscrow, hlk, hhl, hp, hs, exceptError_isOk]
      intro h1 h2
      exact absurd ⟨h1, h2⟩ hs
  · simp [releaseEscrow, hlk, hhl, hp, exceptError_isOk]

/-- Witness for C4: against the demo locked escrow whose hashlock is the
demo hash of "secret", releasing with preimage "wrong" fails with
`PreimageMismatch` and leaves the escrow untouched, while releasing with
preimage "secret" under a valid recipient signature succeeds. -/
theorem hashlock_correctness_witness :
    releaseEscrow demoHash (fun _ _ => true) demoEscrow (some "wrong") "sig" "rcpt" =
      .error .preimageMismatch ∧
    releaseResultState demoHash (fun _ _ => true) demoEscrow (some "wrong") "sig" "rcpt" =
      demoEscrow ∧
    (releaseEscrow demoHash (fun _ _ => true) demoEscrow (some "secret") "sig" "rcpt").isOk =
      true := by
  refine ⟨((hashlock_correctness demoHash (fun _ _ => true) demoEscrow "wrong" "sig" "rcpt"
      "h:secret" rfl rfl).2.1 (by decide)).1,
    ((hashlock_correctness demoHash (fun _ _ => true) demoEscrow "wrong" "sig" "rcpt"
      "h:secret" rfl rfl).2.1 (by decide)).2.1,
    ((hashlock_correctness demoHash (fun _ _ => true) demoEscrow "secret" "sig" "rcpt"
      "h:secret" rfl rfl).2.2 rfl rfl).mpr (by decide)⟩

/-- Claim C5: cancel authorization and terminal-state guard.  A cancel is
rejected with `Unauthorized` exactly when the requester is not the maker,
rejected with `AlreadyTerminal` exactly when the requester is the maker but
the order is already `filled`/`cancelled`/`expired`, succeeds exactly when
the requester is the maker and the order is not terminal, and a successful
cancel sets the status to `cancelled`. -/
theorem cancel_authorization_guard (o : Order) (requester : String) :
    (cancelOrder o requester = .error .unauthorized ↔ requester ≠ o.makerAddress) ∧
    (cancelOrder o requester = .error .alreadyTerminal ↔
      requester = o.makerAddress ∧ o.status.isTerminal = true) ∧
    ((cancelOrder o requester).isOk = true ↔
      requester = o.makerAddress ∧ o.status.isTerminal = false) ∧
    (∀ o2, cancelOrder o requester = .ok o2 → o2.status = .cancelled) := by
  unfold cancelOrder
  split_ifs with h1 h2 <;>
    simp_all [exceptError_isOk, exceptOk_isOk]

/-- Witness for C5: the maker's cancel of the demo active order succeeds and
ends in `cancelled`, while a stranger's cancel is rejected as unauthorized
and a cancel of an already filled order is rejected as already terminal. -/
theorem cancel_authorization_guard_witness :
    (cancelOrder demoActiveOrder "maker1").isOk = true ∧
    cancelOrder demoActiveOrder "intruder" = .error .unauthorized ∧
    cancelOrder demoFilledOrder "maker1" = .error .alreadyTerminal ∧
    ({ demoActiveOrder with status := OrderStatus.cancelled } : Order).status =
      OrderStatus.cancelled := by
  refine ⟨((cancel_authorization_guard demoActiveOrder "maker1").2.2.1).mpr
      ⟨rfl, by decide⟩,
    ((cancel_authorization_guard demoActiveOrder "intruder").1).mpr (by decide),
    ((cancel_authorization_guard demoFilledOrder "maker1").2.1).mpr ⟨rfl, by decide⟩,
    (cancel_authorization_guard demoActiveOrder "maker1").2.2.2
      { demoActiveOrder with status := OrderStatus.cancelled } (by rfl)⟩

/-- Claim C6: activation only on confirmation.  A validly created order
starts in `pending_signature`, which is its only non-terminal state until
the opening transaction confirms; an attempt makes an order `active` only
from `active` itself (a rejected attempt) or from `pending_signature` via
the open-confirmation event; and in the signing modal the success handler
that promotes the pending order runs exactly when a signed transaction was
broadcast and the response status is "confirmed" or "success". -/
theorem activation_only_on_confirmation :
    (∀ sp o, createOrder sp = Except.ok o → o.status = .pendingSignature) ∧
    (∀ (o : Order) (e : OrderEvent), (applyEvent o e).status = .active →
      o.status = .active ∨ (o.status = .pendingSignature ∧ e = .openConfirmed)) ∧
    (∀ hex st : String, handleBroadcast hex st = .promoted ↔
      hex ≠ "" ∧ (st = "confirmed" ∨ st = "success")) := by
  refine ⟨?_, ?_, ?_⟩
  · intro sp o h
    exact (createOrder_ok sp o h).2
  · intro o e h
    cases e with
    | openConfirmed =>
        simp only [applyEvent, applyOrElse] at h
        split at h
        next o2 heq =>
          rw [confirmOpen_ok o o2 heq] at h
          unfold confirmOpen at heq
          split at heq
          next hpend => exact Or.inr ⟨hpend, rfl⟩
          next => simp_all
        next => exact Or.inl h
    | fillConfirmed t a =>
        simp only [applyEvent, applyOrElse] at h
        split at h
        next o2 heq =>
          rw [(fillOrder_ok o t a o2 heq).2] at h
          simp only at h
          split at h <;> simp_all
        next => exact Or.inl h
    | cancelRequested r =>
        simp only [applyEvent, applyOrElse] at h
        split at h
        next o2 heq => rw [cancelOrder_ok o r o2 heq] at h; simp_all
        next => exact Or.inl h
    | expireAtHeight ht =>
        simp only [applyEvent, applyOrElse] at h
        split at h
        next o2 heq => rw [expireOrder_ok o ht o2 heq] at h; simp_all
        next => exact Or.inl h
  · intro hex st
    unfold handleBroadcast
    split_ifs with h1 h2 <;> simp_all

/-- Witness for C6: the demo creation request yields a `pending_signature`
order; confirming its opening makes it `active` and that activation indeed
came from `pending_signature` via the confirmation event; and the modal
promotes an order for a broadcast response with status "confirmed" but not
for one with status "pending". -/
theorem activation_only_on_confirmation_witness :
    demoOrder.status = OrderStatus.pendingSignature ∧
    (demoOrder.status = .active ∨
      (demoOrder.status = .pendingSignature ∧ OrderEvent.openConfirmed = .openConfirmed)) ∧
    handleBroadcast "deadbeef" "confirmed" = .promoted ∧
    handleBroadcast "deadbeef" "pending" ≠ .promoted := by
  refine ⟨activation_only_on_confirmation.1 demoSpec demoOrder (by rfl),
    activation_only_on_confirmation.2.1 demoOrder OrderEvent.openConfirmed (by decide),
    (activation_only_on_confirmation.2.2 "deadbeef" "confirmed").mpr
      ⟨by decide, Or.inl rfl⟩,
    ?_⟩
  intro hcontra
  have h := (activation_only_on_confirmation.2.2 "deadbeef" "pending").mp hcontra
  rcases h.2 with h2 | h2 <;> simp_all

theorem mem_appendIfStr (key : String) (ov : Option String) (k v : String) :
    (k, v) ∈ appendIfStr key ov ↔ k = key ∧ ov = some v ∧ v ≠ "" := by
  cases ov with
  | none => simp [appendIfStr]
  | some s =>
      by_cases hs : s = "" <;>
        simp [appendIfStr, hs, Prod.ext_iff] <;>
        aesop

theorem mem_appendIfNat (key : String) (ov : Option Nat) (k v : String) :
    (k, v) ∈ appendIfNat key ov ↔
      k = key ∧ ∃ n, ov = some n ∧ n ≠ 0 ∧ v = toString n := by
  cases ov with
  | none => simp [appendIfNat]
  | some n =>
      by_cases hn : n = 0 <;>
        simp [appendIfNat, hn, Prod.ext_iff] <;>
        aesop

theorem renderQuery_ne_empty (kv : String × String) (rest : List (String × String)) :
    renderQuery (kv :: rest) ≠ "" := by
  have heq1 : ("=" : String).length = 1 := rfl
  intro h
  have hl := congrArg String.length h
  cases rest with
  | nil =>
      simp [renderQuery, String.length_append, heq1] at hl
  | cons kv2 rest2 =>
      simp [renderQuery, String.length_append, heq1] at hl

/-- Claim C7: order list filters.  The query issued by `listOrders` carries
a pair exactly when the corresponding filter field is supplied (truthy), its
key is the matching snake_case parameter name and its value is the filter's
value (`limit` and `offset` as decimal strings), and no other parameter
occurs; the endpoint is "/orders", with "?" and the rendered query appended
exactly when at least one parameter is present. -/
theorem listOrders_query_exact (f : OrderFilters) :
    (∀ k v : String, (k, v) ∈ listOrdersParams f ↔
      ((k = "status" ∧ f.status = some v ∧ v ≠ "") ∨
       (k = "offer_token" ∧ f.offerToken = some v ∧ v ≠ "") ∨
       (k = "want_token" ∧ f.wantToken = some v ∧ v ≠ "") ∨
       (k = "maker_address" ∧ f.makerAddress = some v ∧ v ≠ "") ∨
       (k = "source_chain" ∧ f.sourceChain = some v ∧ v ≠ "") ∨
       (k = "dest_chain" ∧ f.destChain = some v ∧ v ≠ "") ∨
       (k = "limit" ∧ ∃ n, f.limit = some n ∧ n ≠ 0 ∧ v = toString n) ∨
       (k = "offset" ∧ ∃ n, f.offset = some n ∧ n ≠ 0 ∧ v = toString n))) ∧
    (listOrdersParams f = [] → listOrdersEndpoint f = "/orders") ∧
    (listOrdersParams f ≠ [] →
      listOrdersEndpoint f = "/orders?" ++ renderQuery (listOrdersParams f)) := by
  refine ⟨?_, ?_, ?_⟩
  · intro k v
    simp [listOrdersParams, List.mem_append, mem_appendIfStr, mem_appendIfNat]
  · intro h
    simp [listOrdersEndpoint, h, renderQuery]
  · intro h
    cases hp : listOrdersParams f with
    | nil => exact absurd hp h
    | cons kv rest =>
        have hq : ("/orders" ++ "?" : String) = "/orders?" := by decide
        simp only [listOrdersEndpoint, hp]
        rw [if_neg (renderQuery_ne_empty kv rest), ← String.append_assoc, hq]

/-- Witness for C7: a filter object supplying a status, a maker address and
a limit — plus an empty want-token and a zero offset, which JavaScript
treats as absent — produces exactly the three corresponding parameters and
the expected "/orders?" endpoint. -/
theorem listOrders_query_exact_witness :
    ("status", "active") ∈ listOrdersParams
      { status := some "active", offerToken := none, wantToken := some "",
        makerAddress := some "maker1", sourceChain := none, destChain := none,
        limit := some 50, offset := some 0 } ∧
    ¬ ("want_token", "") ∈ listOrdersParams
      { status := some "active", offerToken := none, wantToken := some "",
        makerAddress := some "maker1", sourceChain := none, destChain := none,
        limit := some 50, offset := some 0 } ∧
    ("limit", "50") ∈ listOrdersParams
      { status := some "active", offerToken := none, wantToken := some "",
        makerAddress := some "maker1", sourceChain := none, destChain := none,
        limit := some 50, offset := some 0 } ∧
    listOrdersEndpoint
      { status := some "active", offerToken := none, wantToken := some "",
        makerAddress := some "maker1", sourceChain := none, destChain := none,
        limit := some 50, offset := some 0 } =
      "/orders?" ++ renderQuery (listOrdersParams
      { status := some "active", offerToken := none, wantToken := some "",
        makerAddress := some "maker1", sourceChain := none, destChain := none,
        limit := some 50, offset := some 0 }) := by
  refine ⟨((listOrders_query_exact _).1 "status" "active").mpr
      (Or.inl ⟨rfl, rfl, by decide⟩),
    fun hmem => ?_,
    ((listOrders_query_exact _).1 "limit" "50").mpr
      (Or.inr (Or.inr (Or.inr (Or.inr (Or.inr (Or.inr (Or.inl
        ⟨rfl, 50, rfl, by decide, by decide⟩))))))),
    (listOrders_query_exact _).2.2 (by decide)⟩
  have h := ((listOrders_query_exact _).1 "want_token" "").mp hmem
  simp at h

/-- Claim C8: a maker cannot fill their own order at the client interface.
When the connected BTC or EVM wallet address is non-empty and equals the
order's maker address, `isOwnOrder` is true and the rendered action is the
own-order notice, never the fill button. -/
theorem maker_cannot_fill_own_order
    (btcAddress evmAddress makerAddress btcWallet evmWallet : Option String)
    (a : String) (ha : a ≠ "")
    (hm : makerAddress = some a)
    (hconn : btcAddress = some a ∨ evmAddress = some a)
    (canFillNow btcConnected evmConnected isApproved : Bool) (wantToken : String) :
    isOwnOrder btcAddress evmAddress makerAddress btcWallet evmWallet = true ∧
    fillActionButton (isOwnOrder btcAddress evmAddress makerAddress btcWallet evmWallet)
        canFillNow btcConnected evmConnected isApproved wantToken = .ownOrderNotice := by
  have hne : a.isEmpty = false := by
    rcases he : a.isEmpty with _ | _
    · rfl
    · exact absurd ((String.isEmpty_iff a).mp he) ha
  have hown : isOwnOrder btcAddress evmAddress makerAddress btcWallet evmWallet = true := by
    rcases hconn with hc | hc <;> subst hc <;> subst hm <;>
      simp [isOwnOrder, truthy, hne]
  rw [hown]
  exact ⟨rfl, by simp [fillActionButton]⟩

/-- Witness for C8: with a BTC wallet connected as "addr1" and an order
made by "addr1", the action area shows the own-order notice. -/
theorem maker_cannot_fill_own_order_witness :
    isOwnOrder (some "addr1") none (some "addr1") none none = true ∧
    fillActionButton (isOwnOrder (some "addr1") none (some "addr1") none none)
      true true false false "USDC" = .ownOrderNotice :=
  maker_cannot_fill_own_order (some "addr1") none (some "addr1") none none
    "addr1" (by decide) rfl (Or.inl rfl) true true false false "USDC"

/-- Counterexample for C9: a non-ok response whose JSON body carries a
present but empty `message` field does not produce an error whose message
is that field's value (the empty string); JavaScript's `||` falls through
to the "API Error: <status>" fallback instead. -/
theorem apiRequest_empty_message_counterexample :
    apiRequest
      { ok := false, status := 500, statusText := "Internal Server Error",
        jsonBody := some { message := some "", rest := "body" } } =
      .error ("API Error: 500") ∧
    ("API Error: 500" : String) ≠ "" := by
  exact ⟨rfl, by decide⟩

/-- Claim C9 (amended: a present but empty `message` field also falls back
to "API Error: <status>").  `apiRequest` returns the parsed JSON body when
the response is ok; on a non-ok response it throws an error whose message
is the body's `message` field when present and non-empty, the statusText
when the body is unparseable and statusText is non-empty, and
"API Error: " followed by the status code otherwise; it never returns a
value for a non-ok response. -/
theorem apiRequest_error_propagation (r : FetchResponse) :
    (r.ok = true → ∀ b, r.jsonBody = some b → apiRequest r = .ok b) ∧
    (r.ok = false →
      (∀ b m, r.jsonBody = some b → b.message = some m → m ≠ "" →
        apiRequest r = .error m) ∧
      (r.jsonBody = none → r.statusText ≠ "" → apiRequest r = .error r.statusText) ∧
      (∀ b m, r.jsonBody = some b → b.message = some m → m = "" →
        apiRequest r = .error ("API Error: " ++ toString r.status)) ∧
      (∀ b, r.jsonBody = some b → b.message = none →
        apiRequest r = .error ("API Error: " ++ toString r.status)) ∧
      (r.jsonBody = none → r.statusText = "" →
        apiRequest r = .error ("API Error: " ++ toString r.status)) ∧
      (∀ b, apiRequest r ≠ .ok b)) := by
  constructor
  · intro hok b hb
    simp [apiRequest, hok, hb]
  · intro hok
    refine ⟨?_, ?_, ?_, ?_, ?_, ?_⟩
    · intro b m hb hm hne
      simp [apiRequest, hok, hb, hm, hne]
    · intro hb hne
      simp [apiRequest, hok, hb, hne]
    · intro b m hb hm hmem
      simp [apiRequest, hok, hb, hm, hmem]
    · intro b hb hm
      simp [apiRequest, hok, hb, hm]
    · intro hb hst
      simp [apiRequest, hok, hb, hst]
    · intro b
      unfold apiRequest
      simp only [hok]
      cases hjb : r.jsonBody with
      | none => simp [hjb]
      | some b2 =>
          cases hm : b2.message with
          | none => simp [hjb, hm]
          | some m => simp [hjb, hm]

/-- Witness for C9: a successful response returns its body; a non-ok
response with an unparseable body throws the statusText; one with an empty
statusText throws the status-code fallback; one with a JSON `message`
throws that message. -/
theorem apiRequest_error_propagation_witness :
    apiRequest
      { ok := true, status := 200, statusText := "OK",
        jsonBody := some { message := none, rest := "[]" } } =
      .ok { message := none, rest := "[]" } ∧
    apiRequest
      { ok := false, status := 404, statusText := "Not Found",
        jsonBody := none } = .error "Not Found" ∧
    apiRequest
      { ok := false, status := 500, statusText := "",
        jsonBody := none } = .error ("API Error: 500") ∧
    apiRequest
      { ok := false, status := 400, statusText := "Bad Request",
        jsonBody := some { message := some "Order not found", rest := "" } } =
      .error "Order not found" := by
  refine ⟨(apiRequest_error_propagation _).1 rfl _ rfl,
    ((apiRequest_error_propagation _).2 rfl).2.1 rfl (by decide),
    ((apiRequest_error_propagation _).2 rfl).2.2.2.2.1 rfl rfl,
    ((apiRequest_error_propagation _).2 rfl).1 _ "Order not found" rfl rfl (by decide)⟩

/-- Counterexample for C10: with `chars = 0`, JavaScript's `slice(-0)` is
`slice(0)`, the whole string, so `shortenAddress` returns "..." followed by
the entire address instead of the first 0 characters, "...", and the last 0
characters (which would be "..." alone). -/
theorem shortenAddress_zero_chars_counterexample :
    shortenAddress (some "abc") 0 = "...abc" ∧
    "abc".take 0 ++ "..." ++ "abc".takeRight 0 = "..." ∧
    shortenAddress (some "abc") 0 ≠ "abc".take 0 ++ "..." ++ "abc".takeRight 0 := by
  refine ⟨by decide, by decide, by decide⟩

/-- Claim C10 (amended: restricted to `chars ≥ 1`; at `chars = 0` the code
instead returns "..." followed by the whole address).  `shortenAddress`
returns "" for a missing or empty address, and otherwise the first `chars`
characters, "...", and the last `chars` characters; the one-argument form
uses `chars = 6`. -/
theorem shortenAddress_shape (a : String) (chars : Nat) (h : 1 ≤ chars) :
    shortenAddress none chars = "" ∧
    shortenAddress (some "") chars = "" ∧
    (a ≠ "" → shortenAddress (some a) chars = a.take chars ++ "..." ++ a.takeRight chars) ∧
    shortenAddressDefault (some a) =
      (if a = "" then "" else a.take 6 ++ "..." ++ a.takeRight 6) := by
  refine ⟨rfl, by simp [shortenAddress], ?_, ?_⟩
  · intro ha
    simp [shortenAddress, ha, sliceLast, Nat.not_eq_zero_of_lt h]
  · by_cases ha : a = "" <;>
      simp [shortenAddressDefault, shortenAddress, sliceLast, ha]

/-- Witness for C10: a ten-character address shortened with 6 characters a
side shows its first six characters, an ellipsis and its last six. -/
theorem shortenAddress_shape_witness :
    shortenAddress (some "0123456789") 6 = "012345...456789" := by
  have h := (shortenAddress_shape "0123456789" 6 (by decide)).2.2.1 (by decide)
  rw [h]
  decide
